import Mathlib

/-!
Verification of the RoSolve captcha-solving client (`rosolve/client.py`).

The client submits a task-creation request, then polls a result endpoint at a
fixed interval until a terminal status is observed or a retry budget is
exhausted.  We embed the client shallowly:

* JSON response bodies are the inductive `Json`; objects are association
  lists, and Python's `d[k]` item access is `Json.index`, which fails with a
  raw lookup error (`KeyError` / `TypeError` in Python) when the key is absent
  or the value is not an object.
* The HTTP transport is an environment: the submission response is one
  `HttpResult`, and the i-th poll request's outcome is `polls i`.  `.fail msg`
  is a transport-level failure (an `aiohttp.ClientError` whose string form is
  `msg`); `.ok body` is a decoded JSON body.
* Exceptions become the `RoError` sum.  `transportError` is an *uncaught*
  `aiohttp.ClientError` propagating raw; `rosolveConnection` is the
  `RoSolveException("Connection error: ...")` wrapper that `get_balance`
  raises; `lookupError` is a raw Python `KeyError`/`TypeError` from item
  access, which is none of the library's documented error classes.
* Real time is abstracted to counting: each executed loop iteration performs
  one `asyncio.sleep(retry_delay)` (counted in `delays`) and then issues one
  poll GET (counted in `pollCalls`); the sleep textually and causally precedes
  the poll within each iteration of `pollLoop`.
-/

namespace RoSolve

/-- JSON values as decoded by `resp.json()`; objects are association lists. -/
inductive Json where
  | null : Json
  | bool : Bool → Json
  | num : Int → Json
  | str : String → Json
  | arr : List Json → Json
  | obj : List (String × Json) → Json

/-- Exceptions the client can raise.  The first four are the library's error
classes from `rosolve/errors.py` plus the `Connection error` wrapper; the last
two are raw Python exceptions that escape unwrapped. -/
inductive RoError where
  /-- The `InvalidKey(data["error"])` exception raised by `get_balance`. -/
  | invalidKey : Json → RoError
  /-- The `TaskError(data["error"])` exception raised on submission. -/
  | taskError : Json → RoError
  /-- The `ProxyError(msg)` exception raised by `_validate_proxy`. -/
  | proxyError : String → RoError
  /-- The `RoSolveException(f"Connection error: ...")` wrapper raised by
  `get_balance`. -/
  | rosolveConnection : String → RoError
  /-- An uncaught `aiohttp.ClientError` propagating raw out of
  `solve_funcaptcha`, which has no `try`/`except` around its requests. -/
  | transportError : String → RoError
  /-- A raw `KeyError`/`TypeError` from an unguarded `d[k]` item access. -/
  | lookupError : String → RoError

/-- Is this error the `Connection error` wrapper (`RoSolveException` with the
`Connection error:` message) described by the documentation? -/
def RoError.isConnection : RoError → Bool
  | .rosolveConnection _ => true
  | _ => false

/-- Is this error a raw lookup failure (`KeyError`/`TypeError`), i.e. none of
the documented kinds (Invalid-Key, Task-Creation, Proxy, Connection)? -/
def RoError.isLookup : RoError → Bool
  | .lookupError _ => true
  | _ => false

/-- Is this error one of the four kinds documented in the error taxonomy:
Invalid-Key, Task-Creation, Proxy, or Connection? -/
def RoError.isDocumented : RoError → Bool
  | .invalidKey _ => true
  | .taskError _ => true
  | .proxyError _ => true
  | .rosolveConnection _ => true
  | .transportError _ => false
  | .lookupError _ => false

/-- First-match association-list lookup (JSON object keys are unique). -/
def Json.assoc : List (String × Json) → String → Option Json
  | [], _ => none
  | (k, v) :: rest, key => if k = key then some v else Json.assoc rest key

/-- Python item access `d[key]`: returns the value, or fails with a raw
lookup error (`KeyError` when the key is absent, `TypeError` when `d` is not
an object). -/
def Json.index : Json → String → Except RoError Json
  | .obj fields, key =>
    match Json.assoc fields key with
    | some v => .ok v
    | none => .error (.lookupError key)
  | _, key => .error (.lookupError key)

/-- Python membership test `key in d` on a decoded JSON object. -/
def Json.hasKey : Json → String → Bool
  | .obj fields, key => (Json.assoc fields key).isSome
  | _, _ => false

/-- Python `==` between a JSON value and a string literal: true exactly when
the value is that string (a non-string never equals a `str`). -/
def Json.eqStr : Json → String → Bool
  | .str s, t => s = t
  | _, _ => false

/-- The outcome of one HTTP request made through the session: either a decoded
JSON body or a transport-level failure (`aiohttp.ClientError`) whose string
form is the carried message. -/
inductive HttpResult where
  | ok : Json → HttpResult
  | fail : String → HttpResult

/-- Python's `s.startswith(p)`: `p` is a prefix of `s` (tested on the
character sequences). -/
def py_startswith (s p : String) : Bool := p.data.isPrefixOf s.data

/-- Embeds `Client._validate_proxy`.  The `isinstance(proxy, str)` guard always
passes here because the argument is typed as a string; the scheme check is
`any(proxy.startswith(p) for p in ['http://', 'https://', 'socks5://'])`. -/
def validate_proxy (proxy : String) : Except RoError String :=
  if py_startswith proxy "http://" || py_startswith proxy "https://"
      || py_startswith proxy "socks5://" then
    .ok proxy
  else
    .error (.proxyError "Proxy must start with http://, https://, or socks5://")

/-- The client's constructed state: the API key and the validated
client-level default proxy (`self.proxy`). -/
structure Client where
  api_key : String
  proxy : Option String

/-- Embeds `Client.__init__`: `self.proxy = self._validate_proxy(proxy) if proxy
else None`.  Python truthiness makes both `None` and the empty string skip
validation.  Construction performs no network I/O (creating an
`aiohttp.ClientSession` opens no connection), so a `ProxyError` here is
raised before any network activity. -/
def Client.init (api_key : String) (proxy : Option String) :
    Except RoError Client :=
  match proxy with
  | none => .ok ⟨api_key, none⟩
  | some p =>
    if p = "" then .ok ⟨api_key, none⟩
    else
      match validate_proxy p with
      | .ok v => .ok ⟨api_key, some v⟩
      | .error e => .error e

/-- Embeds `solving_proxy = self._validate_proxy(proxy) if proxy else self.proxy`
inside `solve_funcaptcha`; again Python truthiness sends `None` and the empty
string to the client-level default. -/
def resolveProxy (c : Client) (proxy : Option String) :
    Except RoError (Option String) :=
  match proxy with
  | none => .ok c.proxy
  | some p =>
    if p = "" then .ok c.proxy
    else
      match validate_proxy p with
      | .ok v => .ok (some v)
      | .error e => .error e

/-- How `aiohttp` serialises the `proxy` payload entry: `None` becomes JSON
`null`, a string stays a string.  The `proxy` key itself is always present in
the payload dict literal. -/
def optProxyJson : Option String → Json
  | none => .null
  | some p => .str p

/-- The `challenge_info` dict literal built in `solve_funcaptcha`. -/
def buildChallengeInfo (blob : String) : Json :=
  .obj [("publicKey", .str "476068BF-9607-4799-B53D-966BE98E2B81"),
        ("site", .str "https://www.roblox.com/"),
        ("surl", .str "https://arkoselabs.roblox.com"),
        ("capiMode", .str "inline"),
        ("styleTheme", .str "default"),
        ("languageEnabled", .bool false),
        ("jsfEnabled", .bool false),
        ("extraData", .obj [("blob", .str blob)]),
        ("ancestorOrigins", .arr [.str "https://www.roblox.com",
                                  .str "https://www.roblox.com"]),
        ("treeIndex", .arr [.num 1, .num 0]),
        ("treeStructure", .str "[[],[[]]]"),
        ("locationHref", .str "https://www.roblox.com/arkose/iframe")]

/-- The `browser_info` dict literal; `secChUa` and `userAgent` are the values
read from the Roblox session's headers. -/
def buildBrowserInfo (cookie secChUa userAgent : String) : Json :=
  .obj [("Cookie", .str cookie),
        ("Sec-Ch-Ua", .str secChUa),
        ("User-Agent", .str userAgent)]

/-- The `payload` dict literal posted to `/createTask`.  All four keys are
always present, including `proxy` (as `null` when no proxy was resolved). -/
def buildPayload (c : Client) (blob cookie secChUa userAgent : String)
    (solvingProxy : Option String) : Json :=
  .obj [("key", .str c.api_key),
        ("challengeInfo", buildChallengeInfo blob),
        ("browserInfo", buildBrowserInfo cookie secChUa userAgent),
        ("proxy", optProxyJson solvingProxy)]

/-- One iteration's body-handling in the polling loop, after the poll body has
been decoded: `some r` means the loop returns `r` now, `none` means the status
is neither `completed` nor `failed` and the loop continues. -/
def pollStep (solution : Json) : Option (Except RoError (Option Json)) :=
  match Json.index solution "status" with
  | .error e => some (.error e)
  | .ok st =>
    if Json.eqStr st "completed" then
      some (match Json.index solution "result" with
        | .error e => .error e
        | .ok r =>
          match Json.index r "solution" with
          | .error e => .error e
          | .ok sol => .ok (some sol))
    else if Json.eqStr st "failed" then
      some (.ok none)
    else
      none

/-- Trace of the polling loop: its result, the number of poll GET requests
issued, and the number of `asyncio.sleep(retry_delay)` suspensions taken. -/
structure PollOutcome where
  result : Except RoError (Option Json)
  pollCalls : Nat
  delays : Nat

/-- Embeds `for _ in range(max_retries): await asyncio.sleep(retry_delay); ...` —
the loop starting at absolute attempt index `i` with `fuel` iterations left.
Each executed iteration first sleeps (one delay), then issues the poll GET
(one poll call); a transport failure on that GET aborts the whole call. -/
def pollLoop (polls : Nat → HttpResult) : Nat → Nat → PollOutcome
  | _, 0 => ⟨.ok none, 0, 0⟩
  | i, fuel + 1 =>
    match polls i with
    | .fail msg => ⟨.error (.transportError msg), 1, 1⟩
    | .ok body =>
      match pollStep body with
      | some r => ⟨r, 1, 1⟩
      | none =>
        let rest := pollLoop polls (i + 1) fuel
        ⟨rest.result, rest.pollCalls + 1, rest.delays + 1⟩

/-- Trace of one `solve_funcaptcha` call: the payload posted to `/createTask`
(`none` when per-call proxy validation raised before the post), the result
(`ok (some sol)` success, `ok none` "no solution", `error e` a raised
exception), and the poll/delay counts. -/
structure SolveOutcome where
  payload : Option Json
  result : Except RoError (Option Json)
  pollCalls : Nat
  delays : Nat

/-- Embeds `Client.solve_funcaptcha`.  `submission` is the `/createTask` response and
`polls i` the i-th `/taskResult/<taskId>` response; `max_retries` is the retry
budget.  `retry_delay` only parameterises the sleeps, which we count. -/
def solve_funcaptcha (c : Client) (blob : String) (proxy : Option String)
    (cookie secChUa userAgent : String) (max_retries : Nat)
    (submission : HttpResult) (polls : Nat → HttpResult) : SolveOutcome :=
  match resolveProxy c proxy with
  | .error e => ⟨none, .error e, 0, 0⟩
  | .ok solvingProxy =>
    let payload := buildPayload c blob cookie secChUa userAgent solvingProxy
    match submission with
    | .fail msg => ⟨some payload, .error (.transportError msg), 0, 0⟩
    | .ok data =>
      if Json.hasKey data "error" then
        match Json.index data "error" with
        | .ok e => ⟨some payload, .error (.taskError e), 0, 0⟩
        | .error e => ⟨some payload, .error e, 0, 0⟩
      else
        match Json.index data "taskId" with
        | .error e => ⟨some payload, .error e, 0, 0⟩
        | .ok _taskId =>
          let loop := pollLoop polls 0 max_retries
          ⟨some payload, loop.result, loop.pollCalls, loop.delays⟩

/-- Embeds `Client.get_balance`: the whole request body handling sits in a
`try`/`except aiohttp.ClientError`, so transport failures are re-raised as
`RoSolveException(f"Connection error: {e}")` while `InvalidKey` and a raw
`KeyError` on `data["balance"]` escape unwrapped. -/
def get_balance (_c : Client) (resp : HttpResult) : Except RoError Json :=
  match resp with
  | .fail msg => .error (.rosolveConnection ("Connection error: " ++ msg))
  | .ok data =>
    if Json.hasKey data "error" then
      match Json.index data "error" with
      | .ok e => .error (.invalidKey e)
      | .error e => .error e
    else
      Json.index data "balance"

/-- A poll attempt at index `j` that lets the loop continue: the transport
succeeds, the body carries a `status` field, and that status is neither
`completed` nor `failed`. -/
def Continues (polls : Nat → HttpResult) (j : Nat) : Prop :=
  ∃ b s, polls j = .ok b ∧ Json.index b "status" = .ok s ∧
    Json.eqStr s "completed" = false ∧ Json.eqStr s "failed" = false

/-- A well-formed submission body per the documented interface: it carries an
`error` field or a `taskId` field. -/
def WellFormedSub (d : Json) : Prop :=
  Json.hasKey d "error" = true ∨ Json.hasKey d "taskId" = true

/-- A well-formed poll body per the documented interface: it carries a
`status` field, and when the status is `completed` it carries a nested
`result.solution`. -/
def WellFormedPoll (b : Json) : Prop :=
  ∃ s, Json.index b "status" = .ok s ∧
    (Json.eqStr s "completed" = true →
      ∃ r sol, Json.index b "result" = .ok r ∧ Json.index r "solution" = .ok sol)

/- Concrete fixtures for witnesses. -/

/-- A submission body `{taskId: "t1"}`. -/
def subBody : Json := .obj [("taskId", .str "t1")]

/-- A poll body `{status: "processing"}`. -/
def procBody : Json := .obj [("status", .str "processing")]

/-- A poll body `{status: "failed"}`. -/
def failBody : Json := .obj [("status", .str "failed")]

/-- A poll body `{status: "completed", result: {solution: "S"}}`. -/
def doneBody : Json :=
  .obj [("status", .str "completed"),
        ("result", .obj [("solution", .str "S")])]

/-- A demo client with no client-level proxy. -/
def demoClient : Client := ⟨"k", none⟩

/-- Poll responses for the `[processing, processing, completed]` scenario. -/
def pollsPPC : Nat → HttpResult
  | 0 => .ok procBody
  | 1 => .ok procBody
  | _ => .ok doneBody

/-- Poll responses for the `[processing, failed]` scenario. -/
def pollsPF : Nat → HttpResult
  | 0 => .ok procBody
  | _ => .ok failBody

/-- Poll responses that always report `processing`. -/
def pollsP : Nat → HttpResult := fun _ => .ok procBody

/-- Poll responses for the `[processing, transport failure]` scenario. -/
def pollsPFail : Nat → HttpResult
  | 0 => .ok procBody
  | _ => .fail "reset"

/-- A demo client with a client-level proxy. -/
def demoClientP : Client := ⟨"k", some "socks5://c"⟩

/-- A balance body `{balance: 42}`. -/
def balBody : Json := .obj [("balance", .num 42)]

/-- An error body `{error: "bad key"}`. -/
def errBody : Json := .obj [("error", .str "bad key")]

/-- A poll body `{status: "completed"}` with the nested solution missing. -/
def doneNoResultBody : Json := .obj [("status", .str "completed")]

/-- An empty JSON object `{}`. -/
def emptyBody : Json := .obj []

/-- Poll responses that always return an empty body (no `status` field). -/
def pollsEmpty : Nat → HttpResult := fun _ => .ok emptyBody

/-! ## Helper lemmas -/

/-- A successful membership test means the item access succeeds. -/
theorem hasKey_true_index (d : Json) (k : String) (h : Json.hasKey d k = true) :
    ∃ v, Json.index d k = .ok v := by
  cases d with
  | obj fields =>
    simp only [Json.hasKey] at h
    simp only [Json.index]
    cases hv : Json.assoc fields k with
    | none => rw [hv] at h; simp at h
    | some v => exact ⟨v, rfl⟩
  | null => simp [Json.hasKey] at h
  | bool b => simp [Json.hasKey] at h
  | num n => simp [Json.hasKey] at h
  | str s => simp [Json.hasKey] at h
  | arr l => simp [Json.hasKey] at h

/-- A failed membership test means the item access raises the lookup error. -/
theorem hasKey_false_index (d : Json) (k : String) (h : Json.hasKey d k = false) :
    Json.index d k = .error (.lookupError k) := by
  cases d with
  | obj fields =>
    simp only [Json.hasKey] at h
    simp only [Json.index]
    cases hv : Json.assoc fields k with
    | none => rfl
    | some v => rw [hv] at h; simp at h
  | null => rfl
  | bool b => rfl
  | num n => rfl
  | str s => rfl
  | arr l => rfl

/-- A successful item access means the membership test succeeds. -/
theorem index_ok_hasKey (d : Json) (k : String) (v : Json)
    (h : Json.index d k = .ok v) : Json.hasKey d k = true := by
  cases d with
  | obj fields =>
    simp only [Json.index] at h
    simp only [Json.hasKey]
    cases hv : Json.assoc fields k with
    | none => rw [hv] at h; cases h
    | some w => simp [hv]
  | null => cases h
  | bool b => cases h
  | num n => cases h
  | str s => cases h
  | arr l => cases h

/-- A body whose status is neither `completed` nor `failed` lets the polling
loop continue. -/
theorem pollStep_continue (b s : Json) (hs : Json.index b "status" = .ok s)
    (h1 : Json.eqStr s "completed" = false) (h2 : Json.eqStr s "failed" = false) :
    pollStep b = none := by
  unfold pollStep
  rw [hs]
  simp [h1, h2]

/-- A body whose status is `failed` stops the loop with the "no solution"
result. -/
theorem pollStep_failed (b : Json) (hs : Json.index b "status" = .ok (.str "failed")) :
    pollStep b = some (.ok none) := by
  unfold pollStep
  rw [hs]
  simp [Json.eqStr]

/-- Step equation: zero fuel left means the loop body never runs. -/
theorem pollLoop_zero (polls : Nat → HttpResult) (i : Nat) :
    pollLoop polls i 0 = ⟨.ok none, 0, 0⟩ := rfl

/-- Step equation: a transport failure on the poll GET aborts the loop after
the iteration's sleep and failing request. -/
theorem pollLoop_fail (polls : Nat → HttpResult) (i f : Nat) (msg : String)
    (hb : polls i = .fail msg) :
    pollLoop polls i (f + 1) = ⟨.error (.transportError msg), 1, 1⟩ := by
  conv_lhs => unfold pollLoop
  rw [hb]

/-- Step equation: a terminal body stops the loop with the step's result. -/
theorem pollLoop_stop (polls : Nat → HttpResult) (i f : Nat) (b : Json)
    (r : Except RoError (Option Json)) (hb : polls i = .ok b)
    (hst : pollStep b = some r) :
    pollLoop polls i (f + 1) = ⟨r, 1, 1⟩ := by
  conv_lhs => unfold pollLoop
  rw [hb]
  simp [hst]

/-- Step equation: a continuing body adds one sleep and one poll call and
recurses. -/
theorem pollLoop_cont (polls : Nat → HttpResult) (i f : Nat) (b : Json)
    (hb : polls i = .ok b) (hst : pollStep b = none) :
    pollLoop polls i (f + 1) =
      ⟨(pollLoop polls (i + 1) f).result,
       (pollLoop polls (i + 1) f).pollCalls + 1,
       (pollLoop polls (i + 1) f).delays + 1⟩ := by
  conv_lhs => unfold pollLoop
  rw [hb]
  simp [hst]

/-- Every executed loop iteration takes exactly one sleep and one poll call,
so the counts agree on every trace. -/
theorem pollLoop_delays_eq_pollCalls (polls : Nat → HttpResult) :
    ∀ fuel i, (pollLoop polls i fuel).delays = (pollLoop polls i fuel).pollCalls := by
  intro fuel
  induction fuel with
  | zero => intro i; rfl
  | succ f ih =>
    intro i
    cases hpi : polls i with
    | fail msg => rw [pollLoop_fail polls i f msg hpi]
    | ok body =>
      cases hst : pollStep body with
      | some r => rw [pollLoop_stop polls i f body r hpi hst]
      | none =>
        rw [pollLoop_cont polls i f body hpi hst]
        simpa using ih (i + 1)

/-- The loop never issues more poll calls than its fuel allows. -/
theorem pollLoop_pollCalls_le (polls : Nat → HttpResult) :
    ∀ fuel i, (pollLoop polls i fuel).pollCalls ≤ fuel := by
  intro fuel
  induction fuel with
  | zero => intro i; exact Nat.le_refl 0
  | succ f ih =>
    intro i
    cases hpi : polls i with
    | fail msg =>
      rw [pollLoop_fail polls i f msg hpi]
      exact Nat.succ_le_succ (Nat.zero_le f)
    | ok body =>
      cases hst : pollStep body with
      | some r =>
        rw [pollLoop_stop polls i f body r hpi hst]
        exact Nat.succ_le_succ (Nat.zero_le f)
      | none =>
        rw [pollLoop_cont polls i f body hpi hst]
        exact Nat.succ_le_succ (ih (i + 1))

/-- Running the loop past `k` consecutive continuing attempts adds `k` to the
poll and delay counts and leaves the rest of the loop unchanged. -/
theorem pollLoop_skip (polls : Nat → HttpResult) :
    ∀ k i fuel, k ≤ fuel → (∀ j, j < k → Continues polls (i + j)) →
    pollLoop polls i fuel =
      ⟨(pollLoop polls (i + k) (fuel - k)).result,
       (pollLoop polls (i + k) (fuel - k)).pollCalls + k,
       (pollLoop polls (i + k) (fuel - k)).delays + k⟩ := by
  intro k
  induction k with
  | zero => intro i fuel _ _; simp
  | succ k ih =>
    intro i fuel hk hc
    obtain ⟨f, rfl⟩ : ∃ f, fuel = f + 1 := ⟨fuel - 1, by omega⟩
    obtain ⟨b, s, hb, hs, h1, h2⟩ := hc 0 (Nat.succ_pos k)
    rw [Nat.add_zero] at hb
    have hstep := pollStep_continue b s hs h1 h2
    have hc' : ∀ j, j < k → Continues polls (i + 1 + j) := by
      intro j hj
      have := hc (j + 1) (Nat.succ_lt_succ hj)
      rwa [show i + (j + 1) = i + 1 + j by omega] at this
    rw [pollLoop_cont polls i f b hb hstep, ih (i + 1) f (by omega) hc']
    rw [show i + 1 + k = i + (k + 1) by omega,
      show f + 1 - (k + 1) = f - k by omega]
    simp [Nat.add_assoc]

/-- A loop whose every attempt continues exhausts its fuel and returns the
"no solution" value. -/
theorem pollLoop_exhaust (polls : Nat → HttpResult) (fuel i : Nat)
    (hc : ∀ j, j < fuel → Continues polls (i + j)) :
    pollLoop polls i fuel = ⟨.ok none, fuel, fuel⟩ := by
  have h := pollLoop_skip polls fuel i fuel (Nat.le_refl fuel) hc
  rw [Nat.sub_self, pollLoop_zero] at h
  simpa using h

/-- Branch lemma: with a resolved proxy, a submission body that carries no
`error` field and a present `taskId`, the call runs the polling loop. -/
theorem solve_run (c : Client) (blob : String) (proxy : Option String)
    (cookie sua ua : String) (mr : Nat) (data : Json) (polls : Nat → HttpResult)
    (sp : Option String) (tid : Json)
    (hp : resolveProxy c proxy = .ok sp)
    (hne : Json.hasKey data "error" = false)
    (ht : Json.index data "taskId" = .ok tid) :
    solve_funcaptcha c blob proxy cookie sua ua mr (.ok data) polls =
      ⟨some (buildPayload c blob cookie sua ua sp),
       (pollLoop polls 0 mr).result, (pollLoop polls 0 mr).pollCalls,
       (pollLoop polls 0 mr).delays⟩ := by
  unfold solve_funcaptcha
  rw [hp]
  simp [hne, ht]

/-- Branch lemma: with a resolved proxy, a transport failure on the
`/createTask` POST propagates raw before any poll. -/
theorem solve_subfail (c : Client) (blob : String) (proxy : Option String)
    (cookie sua ua : String) (mr : Nat) (msg : String) (polls : Nat → HttpResult)
    (sp : Option String) (hp : resolveProxy c proxy = .ok sp) :
    solve_funcaptcha c blob proxy cookie sua ua mr (.fail msg) polls =
      ⟨some (buildPayload c blob cookie sua ua sp),
       .error (.transportError msg), 0, 0⟩ := by
  unfold solve_funcaptcha
  rw [hp]

/-- Branch lemma: with a resolved proxy, a submission body carrying an
`error` field raises `TaskError` with that value before any poll. -/
theorem solve_taskError (c : Client) (blob : String) (proxy : Option String)
    (cookie sua ua : String) (mr : Nat) (data e : Json) (polls : Nat → HttpResult)
    (sp : Option String) (hp : resolveProxy c proxy = .ok sp)
    (he : Json.index data "error" = .ok e) :
    solve_funcaptcha c blob proxy cookie sua ua mr (.ok data) polls =
      ⟨some (buildPayload c blob cookie sua ua sp),
       .error (.taskError e), 0, 0⟩ := by
  have hk := index_ok_hasKey data "error" e he
  unfold solve_funcaptcha
  rw [hp]
  simp [hk, he]

/-- Branch lemma: with a resolved proxy, a submission body with neither an
`error` field nor a `taskId` raises the raw `KeyError` on `data["taskId"]`. -/
theorem solve_noTaskId (c : Client) (blob : String) (proxy : Option String)
    (cookie sua ua : String) (mr : Nat) (data : Json) (polls : Nat → HttpResult)
    (sp : Option String) (hp : resolveProxy c proxy = .ok sp)
    (hne : Json.hasKey data "error" = false)
    (ht : Json.hasKey data "taskId" = false) :
    solve_funcaptcha c blob proxy cookie sua ua mr (.ok data) polls =
      ⟨some (buildPayload c blob cookie sua ua sp),
       .error (.lookupError "taskId"), 0, 0⟩ := by
  have ht2 := hasKey_false_index data "taskId" ht
  unfold solve_funcaptcha
  rw [hp]
  simp [hne, ht2]

/-- A failed proxy resolution can only raise a `ProxyError`. -/
theorem resolveProxy_error (c : Client) (proxy : Option String) (e : RoError)
    (h : resolveProxy c proxy = .error e) : ∃ m, e = .proxyError m := by
  unfold resolveProxy at h
  cases proxy with
  | none => cases h
  | some p =>
    simp only [] at h
    by_cases hp : p = ""
    · rw [if_pos hp] at h; cases h
    · rw [if_neg hp] at h
      unfold validate_proxy at h
      by_cases hv : (py_startswith p "http://" || py_startswith p "https://"
          || py_startswith p "socks5://") = true
      · rw [if_pos hv] at h; cases h
      · rw [if_neg hv] at h
        exact ⟨"Proxy must start with http://, https://, or socks5://",
          by cases h; rfl⟩

/-- The sleeps always equal the poll calls on every solve trace: each loop
iteration sleeps exactly once, before its poll GET. -/
theorem solve_delays_eq_pollCalls (c : Client) (blob : String)
    (proxy : Option String) (cookie sua ua : String) (mr : Nat)
    (sub : HttpResult) (polls : Nat → HttpResult) :
    (solve_funcaptcha c blob proxy cookie sua ua mr sub polls).delays
      = (solve_funcaptcha c blob proxy cookie sua ua mr sub polls).pollCalls := by
  unfold solve_funcaptcha
  cases hp : resolveProxy c proxy with
  | error e => rfl
  | ok sp =>
    cases sub with
    | fail msg => rfl
    | ok data =>
      by_cases hk : Json.hasKey data "error" = true
      · simp only [hk]
        cases he : Json.index data "error" with
        | ok e => rfl
        | error e => rfl
      · simp only [Bool.not_eq_true] at hk
        simp only [hk]
        cases ht : Json.index data "taskId" with
        | error e => rfl
        | ok tid => simpa using pollLoop_delays_eq_pollCalls polls mr 0

/-- The loop never issues more poll calls than `max_retries` on any trace. -/
theorem solve_pollCalls_le (c : Client) (blob : String)
    (proxy : Option String) (cookie sua ua : String) (mr : Nat)
    (sub : HttpResult) (polls : Nat → HttpResult) :
    (solve_funcaptcha c blob proxy cookie sua ua mr sub polls).pollCalls ≤ mr := by
  unfold solve_funcaptcha
  cases hp : resolveProxy c proxy with
  | error e => exact Nat.zero_le mr
  | ok sp =>
    cases sub with
    | fail msg => exact Nat.zero_le mr
    | ok data =>
      by_cases hk : Json.hasKey data "error" = true
      · simp only [hk]
        cases he : Json.index data "error" with
        | ok e => exact Nat.zero_le mr
        | error e => exact Nat.zero_le mr
      · simp only [Bool.not_eq_true] at hk
        simp only [hk]
        cases ht : Json.index data "taskId" with
        | error e => exact Nat.zero_le mr
        | ok tid => simpa using pollLoop_pollCalls_le polls mr 0

/-- Under well-formed poll bodies the loop never raises a raw lookup error. -/
theorem pollLoop_no_lookup (polls : Nat → HttpResult)
    (hwf : ∀ i b, polls i = .ok b → WellFormedPoll b) :
    ∀ fuel i e, (pollLoop polls i fuel).result = .error e →
      RoError.isLookup e = false := by
  intro fuel
  induction fuel with
  | zero => intro i e h; rw [pollLoop_zero] at h; cases h
  | succ f ih =>
    intro i e h
    cases hpi : polls i with
    | fail msg =>
      rw [pollLoop_fail polls i f msg hpi] at h
      simp only [] at h
      cases h
      rfl
    | ok body =>
      obtain ⟨s, hs, hcomp⟩ := hwf i body hpi
      by_cases hcpl : Json.eqStr s "completed" = true
      · obtain ⟨r, sol, hr, hsol⟩ := hcomp hcpl
        have hstep : pollStep body = some (.ok (some sol)) := by
          unfold pollStep
          rw [hs]
          simp [hcpl, hr, hsol]
        rw [pollLoop_stop polls i f body _ hpi hstep] at h
        simp only [] at h
        cases h
      · by_cases hfl : Json.eqStr s "failed" = true
        · have hstep : pollStep body = some (.ok none) := by
            unfold pollStep
            rw [hs]
            simp [hcpl, hfl]
          rw [pollLoop_stop polls i f body _ hpi hstep] at h
          simp only [] at h
          cases h
        · have hstep : pollStep body = none :=
            pollStep_continue body s hs (by simpa using hcpl) (by simpa using hfl)
          rw [pollLoop_cont polls i f body hpi hstep] at h
          exact ih (i + 1) e h

/-- Branch lemma: with a resolved proxy, a submission body without an
`error` field whose `taskId` access fails propagates that raw error before
any poll. -/
theorem solve_taskId_error (c : Client) (blob : String) (proxy : Option String)
    (cookie sua ua : String) (mr : Nat) (data : Json) (e : RoError)
    (polls : Nat → HttpResult) (sp : Option String)
    (hp : resolveProxy c proxy = .ok sp)
    (hne : Json.hasKey data "error" = false)
    (ht : Json.index data "taskId" = .error e) :
    solve_funcaptcha c blob proxy cookie sua ua mr (.ok data) polls =
      ⟨some (buildPayload c blob cookie sua ua sp), .error e, 0, 0⟩ := by
  unfold solve_funcaptcha
  rw [hp]
  simp [hne, ht]

/-- After `k` continuing attempts, a terminal step at attempt `k` (inside the
budget) ends the call with that step's result after `k + 1` poll calls. -/
theorem solve_stops_at (c : Client) (blob : String) (proxy : Option String)
    (cookie sua ua : String) (mr k : Nat) (data tid bk : Json)
    (r : Except RoError (Option Json)) (polls : Nat → HttpResult)
    (sp : Option String)
    (hp : resolveProxy c proxy = .ok sp)
    (hne : Json.hasKey data "error" = false)
    (ht : Json.index data "taskId" = .ok tid)
    (hk : k < mr)
    (hc : ∀ j, j < k → Continues polls j)
    (hb : polls k = .ok bk)
    (hstep : pollStep bk = some r) :
    (solve_funcaptcha c blob proxy cookie sua ua mr (.ok data) polls).result = r ∧
    (solve_funcaptcha c blob proxy cookie sua ua mr (.ok data) polls).pollCalls
      = k + 1 := by
  have hrun := solve_run c blob proxy cookie sua ua mr data polls sp tid hp hne ht
  have hskip := pollLoop_skip polls k 0 mr (Nat.le_of_lt hk)
    (fun j hj => by rw [Nat.zero_add]; exact hc j hj)
  obtain ⟨m, hm⟩ : ∃ m, mr - k = m + 1 := ⟨mr - k - 1, by omega⟩
  rw [hm, pollLoop_stop polls (0 + k) m bk r
    (by rw [Nat.zero_add]; exact hb) hstep] at hskip
  rw [hrun, hskip]
  exact ⟨rfl, by simp [Nat.add_comm]⟩

/-- After `k` continuing attempts, a transport failure on poll `k` (inside
the budget) aborts the call with the raw transport error after `k + 1` poll
calls. -/
theorem solve_transport_at (c : Client) (blob : String) (proxy : Option String)
    (cookie sua ua : String) (mr k : Nat) (data tid : Json) (msg : String)
    (polls : Nat → HttpResult) (sp : Option String)
    (hp : resolveProxy c proxy = .ok sp)
    (hne : Json.hasKey data "error" = false)
    (ht : Json.index data "taskId" = .ok tid)
    (hk : k < mr)
    (hc : ∀ j, j < k → Continues polls j)
    (hb : polls k = .fail msg) :
    (solve_funcaptcha c blob proxy cookie sua ua mr (.ok data) polls).result
      = .error (.transportError msg) ∧
    (solve_funcaptcha c blob proxy cookie sua ua mr (.ok data) polls).pollCalls
      = k + 1 := by
  have hrun := solve_run c blob proxy cookie sua ua mr data polls sp tid hp hne ht
  have hskip := pollLoop_skip polls k 0 mr (Nat.le_of_lt hk)
    (fun j hj => by rw [Nat.zero_add]; exact hc j hj)
  obtain ⟨m, hm⟩ : ∃ m, mr - k = m + 1 := ⟨mr - k - 1, by omega⟩
  rw [hm, pollLoop_fail polls (0 + k) m msg
    (by rw [Nat.zero_add]; exact hb)] at hskip
  rw [hrun, hskip]
  exact ⟨rfl, by simp [Nat.add_comm]⟩

/-! ## Claims -/

/-- Claim C1: in every solve invocation a `retry_delay` sleep precedes every
poll request (including the first), so the sleep count equals the poll count
on every trace; and with poll responses `[processing, processing, completed]`
carrying the nested solution `"S"` and `max_retries ≥ 3`, solve returns `"S"`
after exactly 3 poll calls and 3 delays, ending the loop on the `completed`
status. -/
theorem C1_delay_precedes_each_poll_and_completed_stops (n : Nat) (h : 3 ≤ n) :
    (∀ (c : Client) (blob : String) (proxy : Option String)
        (cookie sua ua : String) (mr : Nat) (sub : HttpResult)
        (polls : Nat → HttpResult),
      (solve_funcaptcha c blob proxy cookie sua ua mr sub polls).delays
        = (solve_funcaptcha c blob proxy cookie sua ua mr sub polls).pollCalls) ∧
    (solve_funcaptcha demoClient "b" none "" "s" "u" n (.ok subBody) pollsPPC).result
      = .ok (some (.str "S")) ∧
    (solve_funcaptcha demoClient "b" none "" "s" "u" n (.ok subBody) pollsPPC).pollCalls
      = 3 ∧
    (solve_funcaptcha demoClient "b" none "" "s" "u" n (.ok subBody) pollsPPC).delays
      = 3 := by
  obtain ⟨m, rfl⟩ : ∃ m, n = m + 3 := ⟨n - 3, by omega⟩
  exact ⟨solve_delays_eq_pollCalls, rfl, rfl, rfl⟩

/-- Concrete check of C1 at `max_retries = 3`. -/
theorem C1_witness :
    3 ≤ 3 ∧
    (solve_funcaptcha demoClient "b" none "" "s" "u" 3 (.ok subBody) pollsPPC).result
      = .ok (some (.str "S")) ∧
    (solve_funcaptcha demoClient "b" none "" "s" "u" 3 (.ok subBody) pollsPPC).pollCalls
      = 3 :=
  ⟨by decide,
   (C1_delay_precedes_each_poll_and_completed_stops 3 (by decide)).2.1,
   (C1_delay_precedes_each_poll_and_completed_stops 3 (by decide)).2.2.1⟩

/-- Claim C2: the polling loop issues at most `max_retries` poll requests on
every trace (solve is a total function, so it always terminates); and when
every poll response carries a status that is neither `completed` nor
`failed`, solve issues exactly `max_retries` poll requests and returns the
no-solution value `None` without raising. -/
theorem C2_retry_budget_and_exhaustion (c : Client) (blob : String)
    (proxy : Option String) (cookie sua ua : String) (mr : Nat)
    (data tid : Json) (polls : Nat → HttpResult) (sp : Option String)
    (hp : resolveProxy c proxy = .ok sp)
    (hne : Json.hasKey data "error" = false)
    (ht : Json.index data "taskId" = .ok tid)
    (hc : ∀ j, j < mr → Continues polls j) :
    (∀ (c2 : Client) (blob2 : String) (proxy2 : Option String)
        (cookie2 sua2 ua2 : String) (mr2 : Nat) (sub2 : HttpResult)
        (polls2 : Nat → HttpResult),
      (solve_funcaptcha c2 blob2 proxy2 cookie2 sua2 ua2 mr2 sub2 polls2).pollCalls
        ≤ mr2) ∧
    (solve_funcaptcha c blob proxy cookie sua ua mr (.ok data) polls).pollCalls
      = mr ∧
    (solve_funcaptcha c blob proxy cookie sua ua mr (.ok data) polls).result
      = .ok none := by
  have hrun := solve_run c blob proxy cookie sua ua mr data polls sp tid hp hne ht
  have hex := pollLoop_exhaust polls mr 0
    (fun j hj => by rw [Nat.zero_add]; exact hc j hj)
  refine ⟨solve_pollCalls_le, ?_, ?_⟩ <;> rw [hrun, hex]

/-- Concrete check of C2: `max_retries = 2` with always-`processing` polls
gives exactly 2 poll calls and the no-solution result. -/
theorem C2_witness :
    (solve_funcaptcha demoClient "b" none "" "s" "u" 2 (.ok subBody) pollsP).pollCalls
      = 2 ∧
    (solve_funcaptcha demoClient "b" none "" "s" "u" 2 (.ok subBody) pollsP).result
      = .ok none :=
  ⟨(C2_retry_budget_and_exhaustion demoClient "b" none "" "s" "u" 2 subBody
      (.str "t1") pollsP none rfl rfl rfl
      (fun _ _ => ⟨procBody, .str "processing", rfl, rfl, rfl, rfl⟩)).2.1,
   (C2_retry_budget_and_exhaustion demoClient "b" none "" "s" "u" 2 subBody
      (.str "t1") pollsP none rfl rfl rfl
      (fun _ _ => ⟨procBody, .str "processing", rfl, rfl, rfl, rfl⟩)).2.2⟩

/-- Claim C3: a submission response body containing an `error` field makes
solve fail with `TaskError` carrying that error value, and zero poll requests
are issued. -/
theorem C3_submission_error_aborts_before_polling (c : Client) (blob : String)
    (proxy : Option String) (cookie sua ua : String) (mr : Nat) (data e : Json)
    (polls : Nat → HttpResult) (sp : Option String)
    (hp : resolveProxy c proxy = .ok sp)
    (he : Json.index data "error" = .ok e) :
    (solve_funcaptcha c blob proxy cookie sua ua mr (.ok data) polls).result
      = .error (.taskError e) ∧
    (solve_funcaptcha c blob proxy cookie sua ua mr (.ok data) polls).pollCalls
      = 0 := by
  rw [solve_taskError c blob proxy cookie sua ua mr data e polls sp hp he]
  exact ⟨rfl, rfl⟩

/-- Concrete check of C3 on the body `{error: "bad key"}`. -/
theorem C3_witness :
    (solve_funcaptcha demoClient "b" none "" "s" "u" 5 (.ok errBody) pollsP).result
      = .error (.taskError (.str "bad key")) ∧
    (solve_funcaptcha demoClient "b" none "" "s" "u" 5 (.ok errBody) pollsP).pollCalls
      = 0 :=
  C3_submission_error_aborts_before_polling demoClient "b" none "" "s" "u" 5
    errBody (.str "bad key") pollsP none rfl rfl

/-- Claim C4 counterexample: a transport failure during submission reaches
the caller as the raw transport error, not as the documented Connection-error
wrapper (which only `get_balance` produces). -/
theorem C4_counterexample :
    (solve_funcaptcha demoClient "b" none "" "s" "u" 3 (.fail "boom") pollsP).result
      = .error (.transportError "boom") ∧
    RoError.isConnection (.transportError "boom") = false ∧
    get_balance demoClient (.fail "boom")
      = .error (.rosolveConnection "Connection error: boom") :=
  ⟨rfl, rfl, rfl⟩

/-- Claim C4 as amended: a transport failure during the submission request or
during any poll request propagates to the caller as the raw transport error
(it is not wrapped into the library's Connection error, which only
`get_balance` produces) and halts polling immediately: no poll request is
issued after the failing request. -/
theorem C4_transport_failure_propagates_raw_and_halts (c : Client)
    (blob : String) (proxy : Option String) (cookie sua ua : String)
    (mr k : Nat) (data tid : Json) (msg : String) (polls : Nat → HttpResult)
    (sp : Option String)
    (hp : resolveProxy c proxy = .ok sp)
    (hne : Json.hasKey data "error" = false)
    (ht : Json.index data "taskId" = .ok tid)
    (hk : k < mr)
    (hc : ∀ j, j < k → Continues polls j)
    (hf : polls k = .fail msg) :
    (solve_funcaptcha c blob proxy cookie sua ua mr (.ok data) polls).result
      = .error (.transportError msg) ∧
    (solve_funcaptcha c blob proxy cookie sua ua mr (.ok data) polls).pollCalls
      = k + 1 ∧
    RoError.isConnection (.transportError msg) = false ∧
    (∀ m2 : String,
      (solve_funcaptcha c blob proxy cookie sua ua mr (.fail m2) polls).result
        = .error (.transportError m2) ∧
      (solve_funcaptcha c blob proxy cookie sua ua mr (.fail m2) polls).pollCalls
        = 0) := by
  obtain ⟨h1, h2⟩ := solve_transport_at c blob proxy cookie sua ua mr k data tid
    msg polls sp hp hne ht hk hc hf
  refine ⟨h1, h2, rfl, fun m2 => ?_⟩
  rw [solve_subfail c blob proxy cookie sua ua mr m2 polls sp hp]
  exact ⟨rfl, rfl⟩

/-- Concrete check of C4 as amended: poll sequence `[processing, transport
failure]` aborts with the raw transport error after 2 poll calls. -/
theorem C4_witness :
    (solve_funcaptcha demoClient "b" none "" "s" "u" 5 (.ok subBody) pollsPFail).result
      = .error (.transportError "reset") ∧
    (solve_funcaptcha demoClient "b" none "" "s" "u" 5 (.ok subBody) pollsPFail).pollCalls
      = 2 :=
  ⟨(C4_transport_failure_propagates_raw_and_halts demoClient "b" none "" "s" "u"
      5 1 subBody (.str "t1") "reset" pollsPFail none rfl rfl rfl (by decide)
      (fun j hj => by
        have hj0 : j = 0 := by omega
        subst hj0
        exact ⟨procBody, .str "processing", rfl, rfl, rfl, rfl⟩) rfl).1,
   (C4_transport_failure_propagates_raw_and_halts demoClient "b" none "" "s" "u"
      5 1 subBody (.str "t1") "reset" pollsPFail none rfl rfl rfl (by decide)
      (fun j hj => by
        have hj0 : j = 0 := by omega
        subst hj0
        exact ⟨procBody, .str "processing", rfl, rfl, rfl, rfl⟩) rfl).2.1⟩

/-- Claim C5: after `k` polls whose status is neither terminal state, the
first poll whose status equals `failed` makes solve return the no-solution
value `None` immediately as a non-error result, after exactly `k + 1` poll
calls. -/
theorem C5_failed_status_returns_none (c : Client) (blob : String)
    (proxy : Option String) (cookie sua ua : String) (mr k : Nat)
    (data tid bk : Json) (polls : Nat → HttpResult) (sp : Option String)
    (hp : resolveProxy c proxy = .ok sp)
    (hne : Json.hasKey data "error" = false)
    (ht : Json.index data "taskId" = .ok tid)
    (hk : k < mr)
    (hc : ∀ j, j < k → Continues polls j)
    (hb : polls k = .ok bk)
    (hst : Json.index bk "status" = .ok (.str "failed")) :
    (solve_funcaptcha c blob proxy cookie sua ua mr (.ok data) polls).result
      = .ok none ∧
    (solve_funcaptcha c blob proxy cookie sua ua mr (.ok data) polls).pollCalls
      = k + 1 :=
  solve_stops_at c blob proxy cookie sua ua mr k data tid bk (.ok none) polls
    sp hp hne ht hk hc hb (pollStep_failed bk hst)

/-- Concrete check of C5: poll sequence `[processing, failed]` with
`max_retries = 2` returns no solution after exactly 2 poll calls. -/
theorem C5_witness :
    (solve_funcaptcha demoClient "b" none "" "s" "u" 2 (.ok subBody) pollsPF).result
      = .ok none ∧
    (solve_funcaptcha demoClient "b" none "" "s" "u" 2 (.ok subBody) pollsPF).pollCalls
      = 2 :=
  C5_failed_status_returns_none demoClient "b" none "" "s" "u" 2 1 subBody
    (.str "t1") failBody pollsPF none rfl rfl rfl (by decide)
    (fun j hj => by
      have hj0 : j = 0 := by omega
      subst hj0
      exact ⟨procBody, .str "processing", rfl, rfl, rfl, rfl⟩) rfl rfl

/-- Claim C6 counterexample: with both proxies absent the posted payload
still carries a `proxy` field (serialised as `null`), so a proxy entry *is*
sent; and a non-absent per-call proxy `""` does not override the client-level
proxy even though validation rejects it — the call silently falls back to the
client proxy. -/
theorem C6_counterexample :
    (solve_funcaptcha demoClient "b" none "" "s" "u" 1 (.ok subBody) pollsP).payload
      = some (buildPayload demoClient "b" "" "s" "u" none) ∧
    Json.index (buildPayload demoClient "b" "" "s" "u" none) "proxy"
      = .ok .null ∧
    (solve_funcaptcha demoClientP "b" (some "") "" "s" "u" 1 (.ok subBody) pollsP).payload
      = some (buildPayload demoClientP "b" "" "s" "u" (some "socks5://c")) ∧
    validate_proxy "" = .error
      (.proxyError "Proxy must start with http://, https://, or socks5://") :=
  ⟨rfl, rfl, rfl, rfl⟩

/-- Claim C6 as amended: proxy precedence in the task-creation payload — a
non-empty per-call proxy is validated and overrides the client-level proxy;
an absent or empty per-call proxy falls back to the client-level proxy; and
the payload always contains a `proxy` field, whose value is the resolved
proxy string, or `null` when neither proxy is present. -/
theorem C6_proxy_precedence_in_payload :
    (∀ (c : Client) (p v : String), p ≠ "" → validate_proxy p = .ok v →
      resolveProxy c (some p) = .ok (some v)) ∧
    (∀ c : Client, resolveProxy c none = .ok c.proxy) ∧
    (∀ c : Client, resolveProxy c (some "") = .ok c.proxy) ∧
    (∀ (c : Client) (blob ck sua ua : String) (sp : Option String),
      Json.index (buildPayload c blob ck sua ua sp) "proxy"
        = .ok (optProxyJson sp)) ∧
    optProxyJson none = .null ∧
    (∀ (c : Client) (blob : String) (proxy : Option String) (ck sua ua : String)
        (mr : Nat) (sub : HttpResult) (polls : Nat → HttpResult)
        (sp : Option String),
      resolveProxy c proxy = .ok sp →
      (solve_funcaptcha c blob proxy ck sua ua mr sub polls).payload
        = some (buildPayload c blob ck sua ua sp)) := by
  refine ⟨?_, fun c => rfl, fun c => rfl, ?_, rfl, ?_⟩
  · intro c p v hne hv
    unfold resolveProxy
    simp only []
    rw [if_neg hne, hv]
  · intro c blob ck sua ua sp
    rfl
  · intro c blob proxy ck sua ua mr sub polls sp hp
    cases sub with
    | fail m => rw [solve_subfail c blob proxy ck sua ua mr m polls sp hp]
    | ok data =>
      by_cases hk : Json.hasKey data "error" = true
      · obtain ⟨v, hv⟩ := hasKey_true_index data "error" hk
        rw [solve_taskError c blob proxy ck sua ua mr data v polls sp hp hv]
      · simp only [Bool.not_eq_true] at hk
        cases ht : Json.index data "taskId" with
        | error e =>
          rw [solve_taskId_error c blob proxy ck sua ua mr data e polls sp hp hk ht]
        | ok tid =>
          rw [solve_run c blob proxy ck sua ua mr data polls sp tid hp hk ht]

/-- Concrete check of C6 as amended: a valid non-empty per-call proxy
overrides the client-level one, and the posted payload records it. -/
theorem C6_witness :
    resolveProxy demoClientP (some "http://a") = .ok (some "http://a") ∧
    (solve_funcaptcha demoClientP "b" (some "http://a") "" "s" "u" 1
        (.ok subBody) pollsP).payload
      = some (buildPayload demoClientP "b" "" "s" "u" (some "http://a")) :=
  ⟨C6_proxy_precedence_in_payload.1 demoClientP "http://a" "http://a"
      (by decide) rfl,
   C6_proxy_precedence_in_payload.2.2.2.2.2 demoClientP "b" (some "http://a")
      "" "s" "u" 1 (.ok subBody) pollsP (some "http://a")
      (C6_proxy_precedence_in_payload.1 demoClientP "http://a" "http://a"
        (by decide) rfl)⟩

/-- Claim C7: proxy validation returns every string with one of the three
accepted scheme prefixes (`http://`, `https://`, `socks5://`) unchanged, and
fails with a Proxy error on every string with none of them.  It is a pure
function of its argument (a Lean function here, with no transport
parameter), performing no I/O. -/
theorem C7_validate_proxy_accepts_exactly_scheme_prefixes (s : String) :
    ((py_startswith s "http://" || py_startswith s "https://"
        || py_startswith s "socks5://") = true →
      validate_proxy s = .ok s) ∧
    ((py_startswith s "http://" || py_startswith s "https://"
        || py_startswith s "socks5://") = false →
      validate_proxy s = .error
        (.proxyError "Proxy must start with http://, https://, or socks5://")) := by
  unfold validate_proxy
  constructor
  · intro h
    rw [if_pos h]
  · intro h
    rw [if_neg (by simp [h])]

/-- Concrete check of C7 on an accepted and a rejected proxy string. -/
theorem C7_witness :
    validate_proxy "socks5://h:1" = .ok "socks5://h:1" ∧
    validate_proxy "ftp://h" = .error
      (.proxyError "Proxy must start with http://, https://, or socks5://") :=
  ⟨(C7_validate_proxy_accepts_exactly_scheme_prefixes "socks5://h:1").1 rfl,
   (C7_validate_proxy_accepts_exactly_scheme_prefixes "ftp://h").2 rfl⟩

/-- Claim C8 counterexample: the empty string is a proxy string of invalid
format (validation rejects it), yet construction accepts it silently — the
truthiness test `if proxy` treats `""` as absent, so no Proxy error is raised
at construction (nor ever). -/
theorem C8_counterexample :
    Client.init "k" (some "") = .ok ⟨"k", none⟩ ∧
    validate_proxy "" = .error
      (.proxyError "Proxy must start with http://, https://, or socks5://") :=
  ⟨rfl, rfl⟩

/-- Claim C8 as amended: supplying a *non-empty* default proxy string of
invalid format makes construction itself fail with the Proxy error —
eagerly, before any network activity (`Client.init` consumes no transport
response), not deferred to solve-call time; the empty string is treated as
absent and never validated. -/
theorem C8_invalid_default_proxy_fails_at_construction (key p : String)
    (hne : p ≠ "")
    (hbad : (py_startswith p "http://" || py_startswith p "https://"
        || py_startswith p "socks5://") = false) :
    Client.init key (some p) = .error
      (.proxyError "Proxy must start with http://, https://, or socks5://") := by
  have hv : validate_proxy p = .error
      (.proxyError "Proxy must start with http://, https://, or socks5://") := by
    unfold validate_proxy
    rw [if_neg (by simp [hbad])]
  unfold Client.init
  simp only []
  rw [if_neg hne, hv]

/-- Concrete check of C8 as amended at the invalid proxy `"ftp://x"`. -/
theorem C8_witness :
    Client.init "k" (some "ftp://x") = .error
      (.proxyError "Proxy must start with http://, https://, or socks5://") :=
  C8_invalid_default_proxy_fails_at_construction "k" "ftp://x" (by decide) rfl

/-- Claim C9: `get_balance` raises the Connection error wrapper on a
transport failure; raises `InvalidKey` preserving the body's `error` value
when that field is present; and otherwise returns the body's `balance`
value. -/
theorem C9_get_balance_contract (c : Client) :
    (∀ msg : String, get_balance c (.fail msg)
      = .error (.rosolveConnection ("Connection error: " ++ msg))) ∧
    (∀ data e : Json, Json.index data "error" = .ok e →
      get_balance c (.ok data) = .error (.invalidKey e)) ∧
    (∀ data b : Json, Json.hasKey data "error" = false →
      Json.index data "balance" = .ok b →
      get_balance c (.ok data) = .ok b) := by
  refine ⟨fun msg => rfl, ?_, ?_⟩
  · intro data e he
    have hk := index_ok_hasKey data "error" e he
    unfold get_balance
    simp [hk, he]
  · intro data b hk hb
    unfold get_balance
    simp [hk, hb]

/-- Concrete check of C9 on `{error: "bad key"}`, `{balance: 42}` and a
transport failure. -/
theorem C9_witness :
    get_balance demoClient (.ok errBody) = .error (.invalidKey (.str "bad key")) ∧
    get_balance demoClient (.ok balBody) = .ok (.num 42) ∧
    get_balance demoClient (.fail "dns")
      = .error (.rosolveConnection "Connection error: dns") :=
  ⟨(C9_get_balance_contract demoClient).2.1 errBody (.str "bad key") rfl,
   (C9_get_balance_contract demoClient).2.2 balBody (.num 42) rfl rfl,
   (C9_get_balance_contract demoClient).1 "dns"⟩

/-- Claim C10: solve's unguarded key lookups — a submission body with
neither `error` nor `taskId`, a poll body without `status`, or a `completed`
body without the nested `result.solution` — fail with a raw lookup error
that is none of the documented error kinds; and under the precondition that
every response carries the documented fields, no raw lookup error can ever
be the result. -/
theorem C10_unguarded_lookups_and_wellformed_precondition (c : Client)
    (blob : String) (proxy : Option String) (cookie sua ua : String)
    (mr k : Nat) (data tid bk : Json) (polls : Nat → HttpResult)
    (sp : Option String)
    (hp : resolveProxy c proxy = .ok sp)
    (hne : Json.hasKey data "error" = false)
    (ht : Json.index data "taskId" = .ok tid)
    (hk : k < mr)
    (hc : ∀ j, j < k → Continues polls j)
    (hb : polls k = .ok bk) :
    (∀ d : Json, Json.hasKey d "error" = false → Json.hasKey d "taskId" = false →
      (solve_funcaptcha c blob proxy cookie sua ua mr (.ok d) polls).result
        = .error (.lookupError "taskId")) ∧
    (Json.hasKey bk "status" = false →
      (solve_funcaptcha c blob proxy cookie sua ua mr (.ok data) polls).result
        = .error (.lookupError "status")) ∧
    (Json.index bk "status" = .ok (.str "completed") →
      Json.hasKey bk "result" = false →
      (solve_funcaptcha c blob proxy cookie sua ua mr (.ok data) polls).result
        = .error (.lookupError "result")) ∧
    (∀ rk : Json, Json.index bk "status" = .ok (.str "completed") →
      Json.index bk "result" = .ok rk → Json.hasKey rk "solution" = false →
      (solve_funcaptcha c blob proxy cookie sua ua mr (.ok data) polls).result
        = .error (.lookupError "solution")) ∧
    (∀ key : String, RoError.isLookup (.lookupError key) = true ∧
      RoError.isDocumented (.lookupError key) = false) ∧
    (∀ (sub2 : HttpResult) (polls2 : Nat → HttpResult),
      (∀ d, sub2 = .ok d → WellFormedSub d) →
      (∀ i b, polls2 i = .ok b → WellFormedPoll b) →
      ∀ e, (solve_funcaptcha c blob proxy cookie sua ua mr sub2 polls2).result
          = .error e →
        RoError.isLookup e = false) := by
  refine ⟨?_, ?_, ?_, ?_, fun key => ⟨rfl, rfl⟩, ?_⟩
  · intro d h1 h2
    rw [solve_noTaskId c blob proxy cookie sua ua mr d polls sp hp h1 h2]
  · intro hns
    have hstep : pollStep bk = some (.error (.lookupError "status")) := by
      unfold pollStep
      rw [hasKey_false_index bk "status" hns]
    exact (solve_stops_at c blob proxy cookie sua ua mr k data tid bk
      (.error (.lookupError "status")) polls sp hp hne ht hk hc hb hstep).1
  · intro hst hnr
    have hstep : pollStep bk = some (.error (.lookupError "result")) := by
      unfold pollStep
      rw [hst, hasKey_false_index bk "result" hnr]
      simp [Json.eqStr]
    exact (solve_stops_at c blob proxy cookie sua ua mr k data tid bk
      (.error (.lookupError "result")) polls sp hp hne ht hk hc hb hstep).1
  · intro rk hst hr hns
    have hstep : pollStep bk = some (.error (.lookupError "solution")) := by
      unfold pollStep
      rw [hst, hr]
      simp [Json.eqStr, hasKey_false_index rk "solution" hns]
    exact (solve_stops_at c blob proxy cookie sua ua mr k data tid bk
      (.error (.lookupError "solution")) polls sp hp hne ht hk hc hb hstep).1
  · intro sub2 polls2 hsub hpoll e hres
    cases sub2 with
    | fail m =>
      rw [solve_subfail c blob proxy cookie sua ua mr m polls2 sp hp] at hres
      simp only [] at hres
      injection hres with h2
      subst h2
      rfl
    | ok d =>
      by_cases hkerr : Json.hasKey d "error" = true
      · obtain ⟨v, hv⟩ := hasKey_true_index d "error" hkerr
        rw [solve_taskError c blob proxy cookie sua ua mr d v polls2 sp hp hv] at hres
        simp only [] at hres
        injection hres with h2
        subst h2
        rfl
      · simp only [Bool.not_eq_true] at hkerr
        rcases hsub d rfl with hk1 | hk2
        · rw [hkerr] at hk1
          cases hk1
        · obtain ⟨tid2, htid⟩ := hasKey_true_index d "taskId" hk2
          rw [solve_run c blob proxy cookie sua ua mr d polls2 sp tid2 hp hkerr htid] at hres
          simp only [] at hres
          exact pollLoop_no_lookup polls2 hpoll mr 0 e hres

/-- Concrete checks of C10: the raw lookup failures at missing `taskId` and
missing `status`, and lookup-freedom on a well-formed run. -/
theorem C10_witness :
    (solve_funcaptcha demoClient "b" none "" "s" "u" 1 (.ok emptyBody) pollsEmpty).result
      = .error (.lookupError "taskId") ∧
    (solve_funcaptcha demoClient "b" none "" "s" "u" 1 (.ok subBody) pollsEmpty).result
      = .error (.lookupError "status") ∧
    RoError.isLookup (.transportError "boom") = false :=
  ⟨(C10_unguarded_lookups_and_wellformed_precondition demoClient "b" none ""
      "s" "u" 1 0 subBody (.str "t1") emptyBody pollsEmpty none rfl rfl rfl
      (by decide) (fun j hj => absurd hj (by omega)) rfl).1 emptyBody rfl rfl,
   (C10_unguarded_lookups_and_wellformed_precondition demoClient "b" none ""
      "s" "u" 1 0 subBody (.str "t1") emptyBody pollsEmpty none rfl rfl rfl
      (by decide) (fun j hj => absurd hj (by omega)) rfl).2.1 rfl,
   (C10_unguarded_lookups_and_wellformed_precondition demoClient "b" none ""
      "s" "u" 1 0 subBody (.str "t1") emptyBody pollsEmpty none rfl rfl rfl
      (by decide) (fun j hj => absurd hj (by omega)) rfl).2.2.2.2.2
      (.ok subBody) (fun _ => .fail "boom")
      (fun d hd => by
        injection hd with h
        subst h
        exact Or.inr rfl)
      (fun i b hb2 => by cases hb2)
      (.transportError "boom") rfl⟩

end RoSolve
